import Mathlib

/-!
Verification of the structured query expression engine of ocdb-server
(`src/eocdb/core/query/query.py`): a shallow embedding of the `Query`
node hierarchy, its precedence-driven text rendering, structural
equality, reconstruction representation, visitor protocol and builder,
together with theorems settling the specification's claims about them.

Python scalars of type `Value = Union[str, bool, int, float, None]` are
embedded without the `float` alternative (floating point); every claim
under study uses only text, integer, boolean or absent scalars.
-/

namespace Ocdb

def KW_AND : String := "AND"

def KW_OR : String := "OR"

def KW_NOT : String := "NOT"

/-- KEYWORDS = {KW_AND, KW_OR, KW_NOT} -/
def KEYWORDS : List String := [KW_AND, KW_OR, KW_NOT]

def OP_INCLUDE : String := "+"

def OP_EXCLUDE : String := "-"

/-- Python scalar `Value = Union[str, bool, int, float, None]`
(`float` omitted from the embedding). -/
inductive Value where
  | vstr : String → Value
  | vbool : Bool → Value
  | vint : Int → Value
  | vnone : Value
deriving DecidableEq

/-- Models `FieldValueQuery.is_text`: `isinstance(value, str)`. -/
def Value.is_text : Value → Bool
  | .vstr _ => true
  | _ => false

/-- Python `str()` of a scalar: the raw text for `str`, `True`/`False`
for booleans, decimal digits for integers, `None` for the absent value. -/
def Value.pyStr : Value → String
  | .vstr s => s
  | .vbool b => if b then "True" else "False"
  | .vint i => toString i
  | .vnone => "None"

/-- Numeric view backing Python `==` on scalars, where `True == 1` and
`False == 0`. -/
def Value.numView : Value → Option Int
  | .vbool b => some (if b then 1 else 0)
  | .vint i => some i
  | _ => none

/-- Python `==` between two scalars. -/
def Value.pyEq (a b : Value) : Bool :=
  match a, b with
  | .vstr x, .vstr y => x == y
  | .vnone, .vnone => true
  | x, y =>
    match x.numView, y.numView with
    | some m, some n => m == n
    | _, _ => false

/-- The reserved characters of `FieldValueQuery._is_quoted_text`,
the Python string literal `' +-&|!(){}[]^"~*?:\\'`. -/
def RESERVED_CHARS : List Char := " +-&|!()\x7b\x7d[]^\"~*?:\\".data

/-- Models `value.replace('"', '\\"')`: escape each double quote with a backslash. -/
def escapeQuotes (s : String) : String :=
  String.mk (s.data.foldr (fun c acc => if c == '"' then '\\' :: '"' :: acc else c :: acc) [])

/-- The `Query` node hierarchy: `PhraseQuery`, `BinaryOpQuery`,
`UnaryOpQuery`, `FieldValueQuery`, `FieldWildcardQuery` (whose value is a
`str`, by the constructor's assertion), `FieldRangeQuery`
(name, start, end, is_exclusive). -/
inductive Query where
  | phrase : List Query → Query
  | binaryOp : String → Query → Query → Query
  | unaryOp : String → Query → Query
  | fieldValue : Option String → Value → Query
  | fieldWildcard : Option String → String → Query
  | fieldRange : Option String → Value → Value → Bool → Query

/-- Models `type(self).__name__`; also models the type-identity test
`type(self) is type(other)` of `Query.is_of_same_type`, since the six
concrete classes have six distinct names. -/
def Query.className : Query → String
  | .phrase _ => "PhraseQuery"
  | .binaryOp _ _ _ => "BinaryOpQuery"
  | .unaryOp _ _ => "UnaryOpQuery"
  | .fieldValue _ _ => "FieldValueQuery"
  | .fieldWildcard _ _ => "FieldWildcardQuery"
  | .fieldRange _ _ _ _ => "FieldRangeQuery"

/-- Models `op_precedence` of each variant: 400 for `PhraseQuery`; 500 for
`OR` and 600 for any other binary operator; 800 for `NOT` and 900 for
any other unary operator; 1000 for the field queries. -/
def Query.op_precedence : Query → Nat
  | .phrase _ => 400
  | .binaryOp op _ _ => if op == KW_OR then 500 else 600
  | .unaryOp op _ => if op == KW_NOT then 800 else 900
  | .fieldValue _ _ => 1000
  | .fieldWildcard _ _ => 1000
  | .fieldRange _ _ _ _ => 1000

/-- Models `_is_quoted_text`: for a `FieldValueQuery`, the value is text and
contains a reserved character; `FieldWildcardQuery` overrides it to
return `False` unconditionally.  (Only the field-value hierarchy has
this method; other variants take the default `false` arm.) -/
def Query.is_quoted_text : Query → Bool
  | .fieldValue _ (.vstr s) => s.data.any (fun c => RESERVED_CHARS.contains c)
  | _ => false

/-- Models `value_to_str` of the three field variants.  `FieldWildcardQuery`
inherits `FieldValueQuery.value_to_str` but its `_is_quoted_text`
override makes the quoting branch unreachable.  Non-field variants have
no such method; they take the empty-string arm. -/
def Query.value_to_str : Query → String
  | q@(.fieldValue _ v) =>
    if q.is_quoted_text then "\"" ++ escapeQuotes v.pyStr ++ "\"" else v.pyStr
  | q@(.fieldWildcard _ v) =>
    if q.is_quoted_text then "\"" ++ escapeQuotes v ++ "\"" else v
  | .fieldRange _ sv ev excl =>
    let v := sv.pyStr ++ " TO " ++ ev.pyStr
    if excl then "\x7b" ++ v ++ "\x7d" else "[" ++ v ++ "]"
  | _ => ""

/-- Models `FieldQuery.__str__`: `f'{self.name}:{value}' if self.name else value`
(Python truthiness: `None` and the empty string are falsy). -/
def fieldStr (name : Option String) (value : String) : String :=
  match name with
  | some n => if n == "" then value else n ++ ":" ++ value
  | none => value

mutual

/-- Models `__str__` of each variant.  `PhraseQuery` joins its terms with a
space; `BinaryOpQuery` and `UnaryOpQuery` wrap an operand's text in
parentheses when their own precedence exceeds the operand's; a unary
keyword operator is followed by a space, `+`/`-` are not; field queries
go through `FieldQuery.__str__`. -/
def Query.str : Query → String
  | .phrase ts => String.intercalate " " (strList ts)
  | q@(.binaryOp op t1 t2) =>
    let t1s := Query.str t1
    let t2s := Query.str t2
    let t1s := if q.op_precedence > t1.op_precedence then "(" ++ t1s ++ ")" else t1s
    let t2s := if q.op_precedence > t2.op_precedence then "(" ++ t2s ++ ")" else t2s
    t1s ++ " " ++ op ++ " " ++ t2s
  | q@(.unaryOp op t) =>
    let ts := Query.str t
    let ts := if q.op_precedence > t.op_precedence then "(" ++ ts ++ ")" else ts
    if KEYWORDS.contains op then op ++ " " ++ ts else op ++ ts
  | q@(.fieldValue name _) => fieldStr name q.value_to_str
  | q@(.fieldWildcard name _) => fieldStr name q.value_to_str
  | q@(.fieldRange name _ _ _) => fieldStr name q.value_to_str

/-- Models `map(str, self.terms)` for `PhraseQuery.__str__`. -/
def strList : List Query → List String
  | [] => []
  | t :: ts => Query.str t :: strList ts

end

mutual

/-- Models `__eq__` of each variant: `is_of_same_type` (the concrete classes
must coincide, so any cross-variant comparison is `False`) and then
field-by-field comparison.  `FieldWildcardQuery` inherits
`FieldValueQuery.__eq__`; its values are both `str`. -/
def Query.eq : Query → Query → Bool
  | .phrase ts, .phrase us => eqList ts us
  | .binaryOp op t1 t2, .binaryOp op2 u1 u2 =>
    op == op2 && Query.eq t1 u1 && Query.eq t2 u2
  | .unaryOp op t, .unaryOp op2 u => op == op2 && Query.eq t u
  | .fieldValue n v, .fieldValue n2 v2 => n == n2 && Value.pyEq v v2
  | .fieldWildcard n v, .fieldWildcard n2 v2 => n == n2 && v == v2
  | .fieldRange n s e x, .fieldRange n2 s2 e2 x2 =>
    n == n2 && Value.pyEq s s2 && Value.pyEq e e2 && x == x2
  | _, _ => false

/-- Tuple equality `self.terms == other.terms`: same length, equal
elementwise. -/
def eqList : List Query → List Query → Bool
  | [], [] => true
  | t :: ts, u :: us => Query.eq t u && eqList ts us
  | _, _ => false

end

/-- Models `FieldValueQuery.value_args_to_repr`: a text value is quoted with
internal double quotes escaped; otherwise `repr(self.value)`, which for
booleans, integers and `None` coincides with `str()`. -/
def Value.value_args_to_repr : Value → String
  | .vstr s => "\"" ++ escapeQuotes s ++ "\""
  | v => v.pyStr

/-- Models `FieldQuery.args_to_repr`: `f'"{self.name}", {args}' if self.name
else f'None, {args}'` (Python truthiness on the name). -/
def fieldArgs (name : Option String) (args : String) : String :=
  match name with
  | some n => if n == "" then "None, " ++ args else "\"" ++ n ++ "\", " ++ args
  | none => "None, " ++ args

/-- Models `Query.__repr__` is `f'{type(self).__name__}({self.args_to_repr()})'`;
this helper builds that string from a node and its already-rendered
constructor arguments. -/
def reprWrap (q : Query) (args : String) : String :=
  q.className ++ "(" ++ args ++ ")"

mutual

/-- Models `args_to_repr` of each variant.  A recursive occurrence
`reprWrap t (Query.args_to_repr t)` is exactly `repr(t)` unfolded one
step.  `FieldRangeQuery.value_args_to_repr` interpolates the two bounds
with `f'{self.start_value}, {self.end_value}'` (plain `str()`
formatting, no quoting) and appends `, is_exclusive=True` only when the
flag is set. -/
def Query.args_to_repr : Query → String
  | .phrase ts => "[" ++ String.intercalate ", " (reprList ts) ++ "]"
  | .binaryOp op t1 t2 =>
    "\"" ++ op ++ "\", " ++ reprWrap t1 (Query.args_to_repr t1) ++ ", " ++
      reprWrap t2 (Query.args_to_repr t2)
  | .unaryOp op t => "\"" ++ op ++ "\", " ++ reprWrap t (Query.args_to_repr t)
  | .fieldValue name v => fieldArgs name v.value_args_to_repr
  | .fieldWildcard name v => fieldArgs name (Value.value_args_to_repr (.vstr v))
  | .fieldRange name sv ev excl =>
    fieldArgs name
      (sv.pyStr ++ ", " ++ ev.pyStr ++ (if excl then ", is_exclusive=True" else ""))

/-- Models `map(repr, self.terms)` for `PhraseQuery.args_to_repr`. -/
def reprList : List Query → List String
  | [] => []
  | t :: ts => reprWrap t (Query.args_to_repr t) :: reprList ts

end

/-- Models `Query.__repr__`. -/
def Query.pyRepr (q : Query) : String :=
  reprWrap q q.args_to_repr

/-- The only runtime error raised by this module: a failing `assert`
statement in a constructor. -/
inductive PyError where
  | assertionError : PyError
deriving DecidableEq

/-- Models `FieldRangeQuery.__init__`:
`assert not (start_value is None and end_value is None)`. -/
def FieldRangeQuery.mk (name : Option String) (start_value end_value : Value)
    (is_exclusive : Bool) : Except PyError Query :=
  if start_value == Value.vnone && end_value == Value.vnone then
    .error .assertionError
  else
    .ok (.fieldRange name start_value end_value is_exclusive)

/-- Models `FieldWildcardQuery.__init__`: `assert isinstance(value, str)` is its
only check; the wildcard-content predicate `is_wildcard_text` is never
consulted by the constructor. -/
def FieldWildcardQuery.mk (name : Option String) (value : Value) :
    Except PyError Query :=
  match value with
  | .vstr s => .ok (.fieldWildcard name s)
  | _ => .error .assertionError

/-- Models `BinaryOpQuery.__init__` stores its arguments without validation. -/
def BinaryOpQuery.mk (op : String) (term1 term2 : Query) : Except PyError Query :=
  .ok (.binaryOp op term1 term2)

/-- Models `UnaryOpQuery.__init__` stores its arguments without validation. -/
def UnaryOpQuery.mk (op : String) (term : Query) : Except PyError Query :=
  .ok (.unaryOp op term)

/-- The loop of `FieldWildcardQuery.is_wildcard_text`, faithful to the
Python operator precedence: the branch
`elif not escape and c == '?' or c == '*':` parses as
`(not escape and c == '?') or (c == '*')`, and that branch leaves the
`escape` flag unchanged. -/
def wildcardLoop : List Char → Bool → Bool → Bool
  | [], _, wildcard_char_seen => wildcard_char_seen
  | c :: rest, escape, wildcard_char_seen =>
    if c == '\\' then wildcardLoop rest true wildcard_char_seen
    else if (!escape && c == '?') || c == '*' then wildcardLoop rest escape true
    else if !escape && c.isWhitespace then false
    else wildcardLoop rest false wildcard_char_seen

/-- Models `FieldWildcardQuery.is_wildcard_text`: `False` for non-text values,
else the character loop with `escape = wildcard_char_seen = False`. -/
def FieldWildcardQuery.is_wildcard_text (value : Value) : Bool :=
  match value with
  | .vstr s => wildcardLoop s.data false false
  | _ => false

/-- Models `QueryBuilder.value(value, name=None)`. -/
def QueryBuilder.value (value : Value) (name : Option String) : Query :=
  Query.fieldValue name value

/-- Models `QueryBuilder.range(from_value, to_value, is_exclusive=False, name=None)`
delegates to the `FieldRangeQuery` constructor (which may fail its assert). -/
def QueryBuilder.range (from_value to_value : Value) (is_exclusive : Bool)
    (name : Option String) : Except PyError Query :=
  FieldRangeQuery.mk name from_value to_value is_exclusive

/-- Models `QueryBuilder.wildcard(value, name=None)`; the argument is a `str`,
so the constructor's `isinstance` assert always passes. -/
def QueryBuilder.wildcard (value : String) (name : Option String) : Query :=
  Query.fieldWildcard name value

/-- Models `QueryBuilder.include(t)`. -/
def QueryBuilder.includeOp (t : Query) : Query :=
  Query.unaryOp OP_INCLUDE t

/-- Models `QueryBuilder.exclude(t)`. -/
def QueryBuilder.excludeOp (t : Query) : Query :=
  Query.unaryOp OP_EXCLUDE t

/-- Models `QueryBuilder.phrase(*terms)`. -/
def QueryBuilder.phrase (terms : List Query) : Query :=
  Query.phrase terms

/-- Models `QueryBuilder.NOT(t)`. -/
def QueryBuilder.NOT (t : Query) : Query :=
  Query.unaryOp "NOT" t

/-- Models `QueryBuilder.AND(t1, t2)`. -/
def QueryBuilder.AND (t1 t2 : Query) : Query :=
  Query.binaryOp "AND" t1 t2

/-- Models `QueryBuilder.OR(t1, t2)`. -/
def QueryBuilder.OR (t1 t2 : Query) : Query :=
  Query.binaryOp "OR" t1 t2

/-- The `QueryVisitor` protocol: one method per variant, generic in the
result type `α`.  To reason about invocation order, each method is a
state transformer over an ambient state `σ` (a pure visitor ignores
`σ`); the Python methods may also return `None`, which a caller models
by choosing `α` to be an option type. -/
structure QueryVisitor (σ : Type) (α : Type) where
  visit_phrase : Query → List α → σ → σ × α
  visit_binary_op : Query → α → α → σ → σ × α
  visit_unary_op : Query → α → σ → σ × α
  visit_field_value : Query → σ → σ × α
  visit_field_range : Query → σ → σ × α
  visit_field_wildcard : Query → σ → σ × α

mutual

/-- Models `accept` of each variant, with Python's left-to-right evaluation of
argument lists made explicit by state threading:
`BinaryOpQuery.accept` is
`visitor.visit_binary_op(self, self.term1.accept(visitor), self.term2.accept(visitor))`,
`PhraseQuery.accept` is
`visitor.visit_phrase(self, [term.accept(visitor) for term in self.terms])`,
and the leaf variants call their visit method directly. -/
def Query.accept (v : QueryVisitor σ α) : Query → σ → σ × α
  | q@(.phrase ts), s =>
    let p := acceptList v ts s
    v.visit_phrase q p.2 p.1
  | q@(.binaryOp _ t1 t2), s =>
    let p1 := Query.accept v t1 s
    let p2 := Query.accept v t2 p1.1
    v.visit_binary_op q p1.2 p2.2 p2.1
  | q@(.unaryOp _ t), s =>
    let p := Query.accept v t s
    v.visit_unary_op q p.2 p.1
  | q@(.fieldValue _ _), s => v.visit_field_value q s
  | q@(.fieldRange _ _ _ _), s => v.visit_field_range q s
  | q@(.fieldWildcard _ _), s => v.visit_field_wildcard q s

/-- The list comprehension `[term.accept(visitor) for term in self.terms]`,
evaluated left to right. -/
def acceptList (v : QueryVisitor σ α) : List Query → σ → σ × List α
  | [], s => (s, [])
  | t :: ts, s =>
    let p := Query.accept v t s
    let ps := acceptList v ts p.1
    (ps.1, p.2 :: ps.2)

end

/-- One recorded visitor invocation: which node's visit method ran, and
the child results it was handed. -/
inductive VisitEvent where
  | phraseEvent : Query → List Query → VisitEvent
  | binaryEvent : Query → Query → Query → VisitEvent
  | unaryEvent : Query → Query → VisitEvent
  | fieldValueEvent : Query → VisitEvent
  | fieldRangeEvent : Query → VisitEvent
  | fieldWildcardEvent : Query → VisitEvent

/-- Instrumenting visitor: the state is the log of invocations in order,
each visit method appends its event and returns the visited node as its
result. -/
def tracingVisitor : QueryVisitor (List VisitEvent) Query where
  visit_phrase := fun q rs s => (s ++ [.phraseEvent q rs], q)
  visit_binary_op := fun q r1 r2 s => (s ++ [.binaryEvent q r1 r2], q)
  visit_unary_op := fun q r s => (s ++ [.unaryEvent q r], q)
  visit_field_value := fun q s => (s ++ [.fieldValueEvent q], q)
  visit_field_range := fun q s => (s ++ [.fieldRangeEvent q], q)
  visit_field_wildcard := fun q s => (s ++ [.fieldWildcardEvent q], q)

mutual

/-- Modelled from the spec: the post-order, left-to-right walk — every
child's events precede the parent's event, and the parent's event
carries the children themselves as the results passed upward. -/
def postorderTrace : Query → List VisitEvent
  | q@(.phrase ts) => postorderTraceList ts ++ [.phraseEvent q ts]
  | q@(.binaryOp _ t1 t2) =>
    postorderTrace t1 ++ postorderTrace t2 ++ [.binaryEvent q t1 t2]
  | q@(.unaryOp _ t) => postorderTrace t ++ [.unaryEvent q t]
  | q@(.fieldValue _ _) => [.fieldValueEvent q]
  | q@(.fieldRange _ _ _ _) => [.fieldRangeEvent q]
  | q@(.fieldWildcard _ _) => [.fieldWildcardEvent q]

/-- Concatenated post-order traces of a phrase's terms, left to right. -/
def postorderTraceList : List Query → List VisitEvent
  | [] => []
  | t :: ts => postorderTrace t ++ postorderTraceList ts

end

/-- Modelled from the spec: wrap the operand's rendered text in
parentheses iff the operand's precedence is strictly lower than the
composite node's own precedence. -/
def wrapOperand (parentPrec : Nat) (t : Query) : String :=
  if t.op_precedence < parentPrec then "(" ++ t.str ++ ")" else t.str

/-- Every variant's precedence is at least 400, the precedence of a
phrase, so a phrase operand is never strictly below its parent. -/
theorem op_precedence_ge_400 (q : Query) : 400 ≤ q.op_precedence := by
  cases q <;> simp [Query.op_precedence] <;> split <;> omega

/-- Wrapping against the phrase precedence 400 never parenthesizes. -/
theorem wrapOperand_400 (t : Query) : wrapOperand 400 t = t.str := by
  have h := op_precedence_ge_400 t
  unfold wrapOperand
  rw [if_neg (by omega)]

/-- The string list of `PhraseQuery.__str__` is a plain map. -/
theorem strList_eq_map (ts : List Query) : strList ts = ts.map Query.str := by
  induction ts with
  | nil => rfl
  | cons t ts ih => simp [strList, ih]

/-- Claim C2: the claim asserts that `is_wildcard_text` is true on `a*b`,
false on `a b`, and false on `a\*b` (escaped star).  The code agrees on
the first two but returns `true` on `a\*b`: its branch
`elif not escape and c == '?' or c == '*':` binds as
`(not escape and c == '?') or (c == '*')`, so a `*` counts as a
wildcard even right after a backslash — the escape mechanism works for
`?` and whitespace but not for `*`, contradicting the stated intent. -/
theorem claim2_wildcard_detection :
    FieldWildcardQuery.is_wildcard_text (.vstr "a*b") = true
    ∧ FieldWildcardQuery.is_wildcard_text (.vstr "a b") = false
    ∧ FieldWildcardQuery.is_wildcard_text (.vstr "a\\*b") = true :=
  ⟨rfl, rfl, rfl⟩

/-- Claim C3 counterexample: constructing a `FieldWildcardQuery` with value
`"hello world"` does not fail — the constructor only asserts
`isinstance(value, str)` and never checks wildcard content, so
construction succeeds, contrary to the claimed `InvalidExpression`
failure. -/
theorem claim3_counterexample :
    FieldWildcardQuery.mk none (.vstr "hello world")
      = Except.ok (Query.fieldWildcard none "hello world") :=
  rfl

/-- Claim C3 (amended): a `FieldRangeQuery` with both bounds absent fails
synchronously at construction with an assertion error (not a dedicated
`InvalidExpression` error, which does not exist in the code), and any
other bound combination is accepted; a `FieldWildcardQuery` constructor
checks only that the value is text — any string, including
`"hello world"`, is accepted, and a non-text value fails the assert. -/
theorem claim3_construction_checks :
    (∀ name excl, FieldRangeQuery.mk name Value.vnone Value.vnone excl
      = Except.error PyError.assertionError)
    ∧ (∀ name sv ev excl, ¬(sv = Value.vnone ∧ ev = Value.vnone) →
      FieldRangeQuery.mk name sv ev excl
        = Except.ok (Query.fieldRange name sv ev excl))
    ∧ (∀ name s, FieldWildcardQuery.mk name (.vstr s)
      = Except.ok (Query.fieldWildcard name s))
    ∧ (∀ name v, v.is_text = false →
      FieldWildcardQuery.mk name v = Except.error PyError.assertionError) := by
  refine ⟨fun name excl => rfl, ?_, fun name s => rfl, ?_⟩
  · intro name sv ev excl h
    unfold FieldRangeQuery.mk
    rw [if_neg]
    simp only [Bool.and_eq_true, beq_iff_eq]
    exact h
  · intro name v h
    cases v <;> simp_all [Value.is_text, FieldWildcardQuery.mk]

/-- Witness for `C3`: the amended theorem applied at concrete inputs —
a one-sided range is accepted and a boolean wildcard value is rejected. -/
theorem claim3_construction_checks_witness :
    FieldRangeQuery.mk none (Value.vint 1) Value.vnone false
      = Except.ok (Query.fieldRange none (Value.vint 1) Value.vnone false)
    ∧ FieldWildcardQuery.mk none (Value.vbool true)
      = Except.error PyError.assertionError :=
  ⟨claim3_construction_checks.2.1 none (Value.vint 1) Value.vnone false (by decide),
   claim3_construction_checks.2.2.2 none (Value.vbool true) rfl⟩

/-- Claim C4: a text value is rendered surrounded by double quotes, with
internal double quotes backslash-escaped, iff it contains one of the
reserved characters of `RESERVED_CHARS`; boolean, integer and absent
scalars render via `str()`; and the two concrete examples hold. -/
theorem claim4_value_quoting :
    (∀ name s, (Query.fieldValue name (Value.vstr s)).value_to_str =
      (if s.data.any (fun c => RESERVED_CHARS.contains c)
       then "\"" ++ escapeQuotes s ++ "\"" else s))
    ∧ (∀ name b, (Query.fieldValue name (Value.vbool b)).value_to_str =
      (if b then "True" else "False"))
    ∧ (∀ name i, (Query.fieldValue name (Value.vint i)).value_to_str = toString i)
    ∧ (∀ name, (Query.fieldValue name Value.vnone).value_to_str = "None")
    ∧ (Query.fieldValue none (Value.vstr "a b")).str = "\"a b\""
    ∧ (Query.fieldValue none (Value.vstr "abc")).str = "abc" := by
  refine ⟨?_, ?_, ?_, ?_, rfl, rfl⟩ <;>
    intros <;> simp [Query.value_to_str, Query.is_quoted_text, Value.pyStr]

/-- Claim C7: a range renders as `start TO end` inside `[...]` when
inclusive and `\x7b...\x7d` when exclusive, with the `name:` prefix
applied by `FieldQuery.__str__`; the builder produces exactly the nodes
of the three examples and those render as claimed. -/
theorem claim7_range_rendering :
    (∀ name sv ev excl, (Query.fieldRange name sv ev excl).str =
      fieldStr name
        (if excl then "\x7b" ++ (sv.pyStr ++ " TO " ++ ev.pyStr) ++ "\x7d"
         else "[" ++ (sv.pyStr ++ " TO " ++ ev.pyStr) ++ "]"))
    ∧ QueryBuilder.range (.vint 1) (.vint 10) false none
      = Except.ok (Query.fieldRange none (.vint 1) (.vint 10) false)
    ∧ (Query.fieldRange none (.vint 1) (.vint 10) false).str = "[1 TO 10]"
    ∧ QueryBuilder.range (.vint 1) (.vint 10) true none
      = Except.ok (Query.fieldRange none (.vint 1) (.vint 10) true)
    ∧ (Query.fieldRange none (.vint 1) (.vint 10) true).str = "\x7b1 TO 10\x7d"
    ∧ QueryBuilder.range Value.vnone (.vint 10) false (some "depth")
      = Except.ok (Query.fieldRange (some "depth") Value.vnone (.vint 10) false)
    ∧ (Query.fieldRange (some "depth") Value.vnone (.vint 10) false).str
      = "depth:[None TO 10]" := by
  refine ⟨?_, rfl, rfl, rfl, rfl, rfl, rfl⟩
  intro name sv ev excl
  cases excl <;> rfl

/-- Claim C9: a wildcard node never quotes its value — `value_to_str` is the
raw value regardless of reserved characters in it, `__str__` is the raw
value with the `name:` prefix exactly when the name is present
(non-empty), as in the concrete example whose value holds a space, a
double quote and a star. -/
theorem claim9_wildcard_never_quoted :
    (∀ name v, (Query.fieldWildcard name v).value_to_str = v)
    ∧ (∀ name v, (Query.fieldWildcard name v).str = fieldStr name v)
    ∧ (∀ n v, n ≠ "" → (Query.fieldWildcard (some n) v).str = n ++ ":" ++ v)
    ∧ (∀ v, (Query.fieldWildcard none v).str = v)
    ∧ (Query.fieldWildcard (some "f") "a b\"*").str = "f:a b\"*" := by
  refine ⟨fun name v => rfl, fun name v => rfl, ?_, fun v => rfl, rfl⟩
  intro n v h
  simp [Query.str, Query.value_to_str, Query.is_quoted_text, fieldStr, h]

/-- Witness for `C9`: the named rendering applied at a concrete name
and a value full of reserved characters. -/
theorem claim9_wildcard_never_quoted_witness :
    (Query.fieldWildcard (some "g") "*? \"x\"").str = "g:*? \"x\"" :=
  claim9_wildcard_never_quoted.2.2.1 "g" "*? \"x\"" (by decide)

/-- Claim C1: a composite node wraps an operand in parentheses iff that
operand's precedence is strictly lower than the composite's own
precedence (`wrapOperand`), independently per operand: binary nodes
render `left op right` with both operands wrapped against the node's
precedence, unary nodes wrap their operand (keyword operators take a
separating space), phrases render their terms wrapped against the
phrase precedence 400 (which, precedences being at least 400, never
adds parentheses) — and the two concrete examples hold. -/
theorem claim1_minimal_parenthesization :
    (∀ op t1 t2, (Query.binaryOp op t1 t2).str =
      wrapOperand (Query.binaryOp op t1 t2).op_precedence t1 ++ " " ++ op ++ " " ++
        wrapOperand (Query.binaryOp op t1 t2).op_precedence t2)
    ∧ (∀ op t, (Query.unaryOp op t).str =
      (if KEYWORDS.contains op
       then op ++ " " ++ wrapOperand (Query.unaryOp op t).op_precedence t
       else op ++ wrapOperand (Query.unaryOp op t).op_precedence t))
    ∧ (∀ ts, (Query.phrase ts).str =
      String.intercalate " " (ts.map (wrapOperand (Query.phrase ts).op_precedence)))
    ∧ (QueryBuilder.AND (Query.fieldValue none (.vstr "a"))
        (QueryBuilder.OR (Query.fieldValue none (.vstr "b"))
          (Query.fieldValue none (.vstr "c")))).str = "a AND (b OR c)"
    ∧ (QueryBuilder.OR (Query.fieldValue none (.vstr "a"))
        (QueryBuilder.AND (Query.fieldValue none (.vstr "b"))
          (Query.fieldValue none (.vstr "c")))).str = "a OR b AND c" := by
  have hw : wrapOperand 400 = Query.str := funext wrapOperand_400
  refine ⟨?_, ?_, ?_, rfl, rfl⟩
  · intro op t1 t2
    simp only [Query.str, wrapOperand, gt_iff_lt]
  · intro op t
    simp only [Query.str, wrapOperand, gt_iff_lt]
  · intro ts
    simp only [Query.str, Query.op_precedence, strList_eq_map, hw]

/-- Claim C5: structural equality is variant-strict — whenever two nodes
are of different concrete classes, `__eq__` returns `False`, whatever
data they carry; in particular a field value is not equal to a wildcard
with the same text (in either direction), and a named field value is
not equal to a nameless one. -/
theorem claim5_variant_strict_equality :
    (∀ a b : Query, a.className ≠ b.className → Query.eq a b = false)
    ∧ Query.eq (QueryBuilder.value (.vstr "x") none)
        (QueryBuilder.wildcard "x" none) = false
    ∧ Query.eq (QueryBuilder.wildcard "x" none)
        (QueryBuilder.value (.vstr "x") none) = false
    ∧ Query.eq (QueryBuilder.value (.vstr "x") (some "f"))
        (QueryBuilder.value (.vstr "x") none) = false := by
  refine ⟨?_, rfl, rfl, rfl⟩
  intro a b h
  cases a <;> cases b <;> first | rfl | exact absurd rfl h

/-- Witness for `C5`: the general cross-variant statement applied to a
field value and a range carrying the same text. -/
theorem claim5_variant_strict_equality_witness :
    Query.eq (Query.fieldValue none (.vstr "y"))
      (Query.fieldRange none (.vstr "y") Value.vnone false) = false :=
  claim5_variant_strict_equality.1 _ _ (by decide)

/-- Claim C10: the binary and unary constructors accept every operator
string unvalidated, and `op_precedence` is 500 for `OR` and 600 for any
other binary operator, 800 for `NOT` and 900 for any other unary
operator — including operators that are not `AND`, `+` or `-`. -/
theorem claim10_op_precedence_unvalidated :
    (∀ op t1 t2, BinaryOpQuery.mk op t1 t2 = Except.ok (Query.binaryOp op t1 t2))
    ∧ (∀ op t, UnaryOpQuery.mk op t = Except.ok (Query.unaryOp op t))
    ∧ (∀ op t1 t2, (Query.binaryOp op t1 t2).op_precedence =
      (if op = "OR" then 500 else 600))
    ∧ (∀ op t, (Query.unaryOp op t).op_precedence =
      (if op = "NOT" then 800 else 900))
    ∧ (Query.binaryOp "XOR" (Query.fieldValue none (.vstr "a"))
        (Query.fieldValue none (.vstr "b"))).op_precedence = 600
    ∧ (Query.unaryOp "MAYBE" (Query.fieldValue none (.vstr "a"))).op_precedence
      = 900 := by
  refine ⟨fun op t1 t2 => rfl, fun op t => rfl, ?_, ?_, rfl, rfl⟩ <;>
    intros <;> simp [Query.op_precedence, KW_OR, KW_NOT]

mutual

/-- Running `accept` with the instrumenting visitor appends exactly the
post-order trace of the tree to the log and returns the visited node. -/
theorem accept_tracing (q : Query) (s : List VisitEvent) :
    Query.accept tracingVisitor q s = (s ++ postorderTrace q, q) := by
  cases q with
  | phrase ts =>
    simp only [Query.accept]
    rw [acceptList_tracing ts s]
    simp [tracingVisitor, postorderTrace, List.append_assoc]
  | binaryOp op t1 t2 =>
    simp only [Query.accept]
    rw [accept_tracing t1 s]
    simp only
    rw [accept_tracing t2 (s ++ postorderTrace t1)]
    simp [tracingVisitor, postorderTrace, List.append_assoc]
  | unaryOp op t =>
    simp only [Query.accept]
    rw [accept_tracing t s]
    simp [tracingVisitor, postorderTrace, List.append_assoc]
  | fieldValue name v => simp [Query.accept, tracingVisitor, postorderTrace]
  | fieldRange name sv ev excl => simp [Query.accept, tracingVisitor, postorderTrace]
  | fieldWildcard name v => simp [Query.accept, tracingVisitor, postorderTrace]

/-- The phrase-term loop of `accept`, traced: the terms contribute their
post-order traces left to right, and the result list is the terms. -/
theorem acceptList_tracing (ts : List Query) (s : List VisitEvent) :
    acceptList tracingVisitor ts s = (s ++ postorderTraceList ts, ts) := by
  cases ts with
  | nil => simp [acceptList, postorderTraceList]
  | cons t ts =>
    simp only [acceptList]
    rw [accept_tracing t s]
    simp only
    rw [acceptList_tracing ts (s ++ postorderTrace t)]
    simp [postorderTraceList, List.append_assoc]

end

/-- Claim C6: `accept` is a depth-first, left-to-right, post-order walk —
with the instrumenting visitor, the invocation log of any tree is its
post-order trace, in which every child's visit event precedes its
parent's and the parent receives the children's results; concretely, on
`AND(value("a"), value("b"))` the visitor sees `visit_field_value` for
`a`, then for `b`, then `visit_binary_op` with both results, in that
order. -/
theorem claim6_visitor_postorder :
    (∀ (q : Query) (s : List VisitEvent),
      Query.accept tracingVisitor q s = (s ++ postorderTrace q, q))
    ∧ Query.accept tracingVisitor
        (QueryBuilder.AND (Query.fieldValue none (.vstr "a"))
          (Query.fieldValue none (.vstr "b"))) []
      = ([VisitEvent.fieldValueEvent (Query.fieldValue none (.vstr "a")),
          VisitEvent.fieldValueEvent (Query.fieldValue none (.vstr "b")),
          VisitEvent.binaryEvent
            (QueryBuilder.AND (Query.fieldValue none (.vstr "a"))
              (Query.fieldValue none (.vstr "b")))
            (Query.fieldValue none (.vstr "a"))
            (Query.fieldValue none (.vstr "b"))],
         QueryBuilder.AND (Query.fieldValue none (.vstr "a"))
           (Query.fieldValue none (.vstr "b"))) :=
  ⟨accept_tracing, rfl⟩

/-- The repr list of `PhraseQuery.args_to_repr` is a plain map. -/
theorem reprList_eq_map (ts : List Query) : reprList ts = ts.map Query.pyRepr := by
  induction ts with
  | nil => rfl
  | cons t ts ih => simp [reprList, ih, Query.pyRepr]

/-- Claim C8 counterexample: the claim requires the text bounds of a
`FieldRangeQuery` to appear quoted in `__repr__`, but
`FieldRangeQuery.value_args_to_repr` interpolates them with plain
`str()` formatting — the repr of a range with text bounds `a`, `b` is
`FieldRangeQuery(None, a, b)`, not the claimed quoted form. -/
theorem claim8_counterexample :
    Query.pyRepr (Query.fieldRange none (.vstr "a") (.vstr "b") false)
      = "FieldRangeQuery(None, a, b)"
    ∧ "FieldRangeQuery(None, a, b)" ≠ "FieldRangeQuery(None, \"a\", \"b\")" :=
  ⟨rfl, by decide⟩

/-- Claim C8 (amended): `__repr__` has the form `VariantName(args…)` with
args mirroring the constructor signature; the text value of a
`FieldValueQuery` or `FieldWildcardQuery` is unconditionally quoted
with internal double quotes backslash-escaped, and field-name and
operator arguments are unconditionally wrapped in double quotes
(without internal escaping) — but the start and end bounds of a
`FieldRangeQuery` are interpolated in their natural textual form,
unquoted even when they are text. -/
theorem claim8_repr_shape :
    (∀ q : Query, q.pyRepr = q.className ++ "(" ++ q.args_to_repr ++ ")")
    ∧ (∀ name s, (Query.fieldValue name (Value.vstr s)).pyRepr
      = "FieldValueQuery(" ++ fieldArgs name ("\"" ++ escapeQuotes s ++ "\"") ++ ")")
    ∧ (∀ name v, v.is_text = false → (Query.fieldValue name v).pyRepr
      = "FieldValueQuery(" ++ fieldArgs name v.pyStr ++ ")")
    ∧ (∀ name s, (Query.fieldWildcard name s).pyRepr
      = "FieldWildcardQuery(" ++ fieldArgs name ("\"" ++ escapeQuotes s ++ "\"") ++ ")")
    ∧ (∀ name sv ev excl, (Query.fieldRange name sv ev excl).pyRepr
      = "FieldRangeQuery(" ++
          fieldArgs name (sv.pyStr ++ ", " ++ ev.pyStr ++
            (if excl then ", is_exclusive=True" else "")) ++ ")")
    ∧ (∀ op t1 t2, (Query.binaryOp op t1 t2).pyRepr
      = "BinaryOpQuery(" ++
          ("\"" ++ op ++ "\", " ++ t1.pyRepr ++ ", " ++ t2.pyRepr) ++ ")")
    ∧ (∀ op t, (Query.unaryOp op t).pyRepr
      = "UnaryOpQuery(" ++ ("\"" ++ op ++ "\", " ++ t.pyRepr) ++ ")")
    ∧ (∀ ts, (Query.phrase ts).pyRepr
      = "PhraseQuery(" ++
          ("[" ++ String.intercalate ", " (ts.map Query.pyRepr) ++ "]") ++ ")") := by
  refine ⟨fun q => rfl, fun name s => rfl, ?_, fun name s => rfl, fun name sv ev excl => rfl,
    fun op t1 t2 => rfl, fun op t => rfl, ?_⟩
  · intro name v h
    cases v <;> simp_all [Value.is_text] <;> rfl
  · intro ts
    simp only [Query.pyRepr, reprWrap, Query.className, Query.args_to_repr, reprList_eq_map]
    rfl

/-- Witness for `C8`: the amended repr shape applied at a non-text
field value. -/
theorem claim8_repr_shape_witness :
    (Query.fieldValue none Value.vnone).pyRepr = "FieldValueQuery(None, None)" := by
  have h := claim8_repr_shape.2.2.1 none Value.vnone rfl
  simpa [fieldArgs, Value.pyStr] using h

end Ocdb
